import Mathlib

/-!
# Verification of the wasm build-pipeline orchestrator

Shallow embedding of `src/frontends/wasm/build.py`: a straight-line Python
script that runs three external tools in order (cargo build, wasm-bindgen,
wasm-opt), printing a notice before each one and aborting on the first
nonzero exit status via `subprocess.run(...).check_returncode()`.

The embedding models:
* `joinPath` / `joinPaths` — `os.path.join` (POSIX semantics) as used by the
  script (the separator check of `posixpath.join` is on the single character
  `'/'`, modelled on `String.data` head/last);
* `Stage` — one external-tool invocation: program, argument list, working
  directory (`cwd=root_dir` in the script) and environment overlay (the
  script passes no `env=` to `subprocess.run` and its `os.environ.update`
  call is commented out, so every overlay is empty);
* `resolvePaths` — the three paths the script builds with `os.path.join`;
* `buildScript` — the ordered (notice, stage) list of the script;
* `runStages` — the script's control flow: print the notice, spawn the
  child, and on a nonzero exit status or a spawn failure raise an uncaught
  exception, which terminates the Python process with exit code 1.
  The behaviour of the external child processes is an oracle parameter.
-/

/-- `os.path.join a b` for POSIX: if `b` is absolute it replaces `a`;
if `a` is empty or ends with the separator, concatenate; otherwise insert
the separator. -/
def joinPath (a b : String) : String :=
  if b.data.head? = some '/' then b
  else if a = "" then b
  else if a.data.getLast? = some '/' then a ++ b
  else a ++ "/" ++ b

/-- `os.path.join` with several components, folding `joinPath` left. -/
def joinPaths (a : String) (rest : List String) : String :=
  rest.foldl joinPath a

/-- One external-tool invocation descriptor.  In the script each
`subprocess.run` call passes a command list (its head is the program, the
tail the arguments), `cwd=root_dir`, and no `env=` keyword, so the child
inherits the ambient environment (empty overlay). -/
structure Stage where
  program : String
  arguments : List String
  workingDirectory : String
  environmentOverlay : List (String × String)
deriving DecidableEq, Repr

/-- The paths the script computes with `os.path.join` from `root_dir`
(`root_dir = os.path.dirname(__file__)`, the directory holding the script). -/
structure ResolvedPaths where
  rootDir : String
  targetArtifact : String
  outputDir : String
  bridgedArtifact : String
deriving DecidableEq, Repr

/-- The path expressions of `build.py`:
`os.path.join(root_dir, "..", "..", "target", "wasm32-unknown-unknown",
"release", "gba_rust_wasm.wasm")` (wasm-bindgen's input),
`os.path.join(root_dir, "pkg")` (wasm-bindgen's `--out-dir`) and
`os.path.join(root_dir, "pkg", "gba_rust_wasm_bg.wasm")` (wasm-opt's
input and output). -/
def resolvePaths (rootDir : String) : ResolvedPaths where
  rootDir := rootDir
  targetArtifact :=
    joinPaths rootDir ["..", "..", "target", "wasm32-unknown-unknown",
      "release", "gba_rust_wasm.wasm"]
  outputDir := joinPath rootDir "pkg"
  bridgedArtifact := joinPaths rootDir ["pkg", "gba_rust_wasm_bg.wasm"]

/-- The `cargo build` invocation of `build.py` (lines 23-32). -/
def compileStage (rootDir : String) : Stage where
  program := "cargo"
  arguments := ["build", "--release", "--target", "wasm32-unknown-unknown"]
  workingDirectory := rootDir
  environmentOverlay := []

/-- The `wasm-bindgen` invocation of `build.py` (lines 38-56). -/
def bindStage (rootDir : String) : Stage where
  program := "wasm-bindgen"
  arguments :=
    [(resolvePaths rootDir).targetArtifact,
     "--out-dir", (resolvePaths rootDir).outputDir,
     "--target", "no-modules"]
  workingDirectory := rootDir
  environmentOverlay := []

/-- The `wasm-opt` invocation of `build.py` (lines 60-69). -/
def optStage (rootDir : String) : Stage where
  program := "wasm-opt"
  arguments :=
    [(resolvePaths rootDir).bridgedArtifact, "-O4", "-o",
     (resolvePaths rootDir).bridgedArtifact]
  workingDirectory := rootDir
  environmentOverlay := []

/-- The whole script, in source order: each `print` notice paired with the
`subprocess.run` invocation that follows it. -/
def buildScript (rootDir : String) : List (String × Stage) :=
  [("now: rustc compilation", compileStage rootDir),
   ("now: wasm-bindgen pass", bindStage rootDir),
   ("now: wasm-opt pass", optStage rootDir)]

/-- The `j`-th stage of the script (0-based). -/
def stageAt (rootDir : String) (j : Nat) : Stage :=
  ((buildScript rootDir).getD j ("", compileStage rootDir)).2

/-- Outcome of spawning one child process: it either ran to termination
with some exit code, or could not be located/started at all
(`FileNotFoundError` from `subprocess.run`). -/
inductive RunResult where
  | exited (code : Int)
  | spawnFailed
deriving DecidableEq, Repr

/-- Observable actions of the orchestrator: printing a notice and
attempting to spawn a stage's child process.  The script performs no other
action — in particular no cleanup or rollback of filesystem effects. -/
inductive Event where
  | notice (msg : String)
  | invoke (s : Stage)
deriving DecidableEq, Repr

/-- The two events one script step emits: the `print` and the spawn. -/
def stageEvents (p : String × Stage) : List Event :=
  [.notice p.1, .invoke p.2]

/-- The script's control flow over a list of (notice, stage) steps, with
the children's behaviour given by `oracle`.  Each step prints its notice
and spawns its stage; `check_returncode()` raises on a nonzero exit status
and `subprocess.run` itself raises on a spawn failure, and in either case
the uncaught exception terminates the Python process with exit code 1.
Returns the event trace and the process exit code. -/
def runStages (oracle : Stage → RunResult) :
    List (String × Stage) → List Event × Nat
  | [] => ([], 0)
  | p :: rest =>
    if oracle p.2 = .exited 0 then
      let r := runStages oracle rest
      (stageEvents p ++ r.1, r.2)
    else
      (stageEvents p, 1)

/-- A full run of `build.py`. -/
def runScript (rootDir : String) (oracle : Stage → RunResult) :
    List Event × Nat :=
  runStages oracle (buildScript rootDir)

/-- Lexical normalisation of an absolute POSIX path: drop empty and `"."`
components, let `".."` remove the preceding component (`".."` directly
under the root is dropped, as POSIX resolves it to the root itself). -/
def normComps (comps : List String) : List String :=
  comps.foldl
    (fun acc c =>
      if c = "" ∨ c = "." then acc
      else if c = ".." then acc.dropLast
      else acc ++ [c])
    []

/-- Split a character list at every occurrence of `sep` (the semantics of
`str.split(sep)` for a one-character separator). -/
def splitOnChar (sep : Char) : List Char → List (List Char)
  | [] => [[]]
  | c :: cs =>
    if c = sep then [] :: splitOnChar sep cs
    else
      match splitOnChar sep cs with
      | [] => [[c]]
      | h :: t => (c :: h) :: t

/-- The `/`-separated components of a path. -/
def splitSlash (p : String) : List String :=
  (splitOnChar '/' p.data).map (fun l => ⟨l⟩)

/-- Join components with `/` separators. -/
def joinWithSlash : List String → String
  | [] => ""
  | [x] => x
  | x :: y :: xs => x ++ "/" ++ joinWithSlash (y :: xs)

/-- Normalised form of an absolute path. -/
def normalizeAbs (p : String) : String :=
  "/" ++ joinWithSlash (normComps (splitSlash p))

example : normalizeAbs "/proj/frontend/../../target/x/release/a.wasm" =
    "/target/x/release/a.wasm" := by decide

/-- A path component that is nonempty and neither starts nor ends with the
separator.  Every literal component the script passes to `os.path.join` is
of this shape. -/
def goodComp (b : String) : Prop :=
  b.data ≠ [] ∧ b.data.head? ≠ some '/' ∧ b.data.getLast? ≠ some '/'

instance (b : String) : Decidable (goodComp b) := by
  unfold goodComp; infer_instance

/-- `"/" ++ b₁ ++ "/" ++ b₂ ++ ⋯`: the fixed relative suffix a chain of
`os.path.join`s appends to its first argument. -/
def slashConcat : List String → String
  | [] => ""
  | b :: l => "/" ++ b ++ slashConcat l

/-- Modelled from the spec: the repository's "simd-debug" build variant is a
second build script that is not present under `src/` (only the plain-release
`build.py` is).  Per §4.3 and §8 of the spec, its compile stage is the
plain compile stage plus (a) an environment overlay enabling the SIMD
instruction-set feature for the compiler's code generator and (b) a
from-source standard-library rebuild restricted to the minimal components
(`std,panic_abort` per the spec's design notes). -/
def simdCompileStage (rootDir : String) : Stage where
  program := "cargo"
  arguments := ["build", "--release", "--target", "wasm32-unknown-unknown",
    "-Zbuild-std=std,panic_abort"]
  workingDirectory := rootDir
  environmentOverlay := [("RUSTFLAGS", "-C target-feature=+simd128")]

/-- Modelled from the spec: the "simd-debug" variant's optimize stage (not
present under `src/`).  Per §4.3 of the spec it invokes the binary optimizer
on `bridgedArtifact` in place at maximum aggressiveness, additionally
enabling bulk-memory and reference-type instruction support and retaining
debug information. -/
def simdOptStage (rootDir : String) : Stage where
  program := "wasm-opt"
  arguments :=
    [(resolvePaths rootDir).bridgedArtifact, "-O4",
     "--enable-bulk-memory", "--enable-reference-types", "-g", "-o",
     (resolvePaths rootDir).bridgedArtifact]
  workingDirectory := rootDir
  environmentOverlay := []

/-- Oracle for a run where every child process succeeds. -/
def allOk : Stage → RunResult := fun _ => .exited 0

/-- Oracle for a run where the bindings generator (stage 2) exits with
status 2 and every other child succeeds. -/
def failBindOracle : Stage → RunResult := fun s =>
  if s.program = "wasm-bindgen" then .exited 2 else .exited 0

/-- Oracle for a run where the first stage's program cannot be spawned. -/
def spawnFailOracle : Stage → RunResult := fun _ => .spawnFailed

/-! ## Helper lemmas on path joining -/

theorem joinPath_eq_append (a b : String) (ha : a ≠ "")
    (ha2 : a.data.getLast? ≠ some '/') (hb : b.data.head? ≠ some '/') :
    joinPath a b = a ++ "/" ++ b := by
  simp [joinPath, ha, ha2, hb]

theorem append_ne_empty (a b : String) (hb : b.data ≠ []) : a ++ b ≠ "" := by
  intro h
  have h2 : a.data ++ b.data = [] := by
    simpa [String.data_append] using congrArg String.data h
  exact hb (List.append_eq_nil.mp h2).2

theorem getLast?_append_str (a b : String) (hb : b.data ≠ []) :
    (a ++ b).data.getLast? = b.data.getLast? := by
  rw [String.data_append, List.getLast?_append]
  cases h : b.data.getLast? with
  | none => exact absurd (List.getLast?_eq_none_iff.mp h) hb
  | some c => rfl

theorem joinPaths_good (l : List String) (a : String) (ha : a ≠ "")
    (ha2 : a.data.getLast? ≠ some '/') (hl : ∀ b ∈ l, goodComp b) :
    joinPaths a l = a ++ slashConcat l := by
  induction l generalizing a with
  | nil => simp [joinPaths, slashConcat]
  | cons b l ih =>
    obtain ⟨hb1, hb2, hb3⟩ := hl b (by simp)
    have hj : joinPath a b = a ++ "/" ++ b := joinPath_eq_append a b ha ha2 hb2
    have hne : (a ++ "/" ++ b) ≠ "" := append_ne_empty _ b hb1
    have hlast : (a ++ "/" ++ b).data.getLast? ≠ some '/' := by
      rw [getLast?_append_str _ b hb1]; exact hb3
    calc joinPaths a (b :: l) = joinPaths (joinPath a b) l := rfl
      _ = joinPaths (a ++ "/" ++ b) l := by rw [hj]
      _ = (a ++ "/" ++ b) ++ slashConcat l :=
          ih (a ++ "/" ++ b) hne hlast (fun c hc => hl c (by simp [hc]))
      _ = a ++ slashConcat (b :: l) := by
          simp [slashConcat, String.append_assoc]

/-- Closed form of the script's three `os.path.join` results, for any root
anchor that is nonempty and has no trailing separator (true of
`os.path.dirname(__file__)`, which never ends in `/` except at the
filesystem root). -/
theorem resolvePaths_eq (rootDir : String) (h1 : rootDir ≠ "")
    (h2 : rootDir.data.getLast? ≠ some '/') :
    resolvePaths rootDir =
      { rootDir := rootDir
        targetArtifact :=
          rootDir ++ "/../../target/wasm32-unknown-unknown/release/gba_rust_wasm.wasm"
        outputDir := rootDir ++ "/pkg"
        bridgedArtifact := rootDir ++ "/pkg/gba_rust_wasm_bg.wasm" } := by
  have ht := joinPaths_good
    ["..", "..", "target", "wasm32-unknown-unknown", "release",
     "gba_rust_wasm.wasm"] rootDir h1 h2 (by decide)
  have hbr := joinPaths_good ["pkg", "gba_rust_wasm_bg.wasm"] rootDir h1 h2
    (by decide)
  have ho := joinPath_eq_append rootDir "pkg" h1 h2 (by decide)
  have e1 : slashConcat
      ["..", "..", "target", "wasm32-unknown-unknown", "release",
       "gba_rust_wasm.wasm"] =
      "/../../target/wasm32-unknown-unknown/release/gba_rust_wasm.wasm" := by
    decide
  have e2 : slashConcat ["pkg", "gba_rust_wasm_bg.wasm"] =
      "/pkg/gba_rust_wasm_bg.wasm" := by decide
  simp only [resolvePaths, ht, hbr, ho, e1, e2, String.append_assoc]
  simp

/-- If two stages name different programs they are different stages. -/
theorem bind_ne_compile (r : String) : bindStage r ≠ compileStage r := by
  intro h
  have hp := congrArg Stage.program h
  simp [bindStage, compileStage] at hp

theorem opt_ne_compile (r : String) : optStage r ≠ compileStage r := by
  intro h
  have hp := congrArg Stage.program h
  simp [optStage, compileStage] at hp

theorem opt_ne_bind (r : String) : optStage r ≠ bindStage r := by
  intro h
  have hp := congrArg Stage.program h
  simp [optStage, bindStage] at hp

/-- A string shorter than `x` is never `a ++ x`. -/
theorem ne_append_of_length_lt (a x y : String) (h : y.length < x.length) :
    y ≠ a ++ x := by
  intro he
  have hl := congrArg String.length he
  rw [String.length_append] at hl
  omega

/-- One executor step on a stage whose child exits 0. -/
theorem runStages_cons_ok (oracle : Stage → RunResult) (p : String × Stage)
    (rest : List (String × Stage)) (h : oracle p.2 = .exited 0) :
    runStages oracle (p :: rest) =
      (stageEvents p ++ (runStages oracle rest).1,
       (runStages oracle rest).2) := by
  simp [runStages, h]

/-- One executor step on a stage whose child fails (nonzero exit status or
spawn failure): the uncaught exception ends the process with exit code 1. -/
theorem runStages_cons_fail (oracle : Stage → RunResult) (p : String × Stage)
    (rest : List (String × Stage)) (h : oracle p.2 ≠ .exited 0) :
    runStages oracle (p :: rest) = (stageEvents p, 1) := by
  simp [runStages, h]

/-- C2. Overall success condition: the orchestrator process exits with code
0 iff all three stages' child processes exit with status 0; otherwise it
exits 1 (nonzero), the Python exit code for an uncaught exception. -/
theorem pipeline_success_iff (rootDir : String) (oracle : Stage → RunResult) :
    (runScript rootDir oracle).2 = 0 ↔
      (oracle (compileStage rootDir) = .exited 0 ∧
       oracle (bindStage rootDir) = .exited 0 ∧
       oracle (optStage rootDir) = .exited 0) := by
  by_cases h1 : oracle (compileStage rootDir) = .exited 0 <;>
    by_cases h2 : oracle (bindStage rootDir) = .exited 0 <;>
      by_cases h3 : oracle (optStage rootDir) = .exited 0 <;>
        simp [runScript, buildScript, runStages, h1, h2, h3]

/-- C3. Stage count and order: the pipeline consists of exactly three
stages, in the fixed order compile (`cargo`) → bind (`wasm-bindgen`) →
optimize (`wasm-opt`), and a notice naming each stage is emitted directly
before that stage's invocation. -/
theorem pipeline_three_stages (rootDir : String) (oracle : Stage → RunResult)
    (hall : ∀ p ∈ buildScript rootDir, oracle p.2 = .exited 0) :
    (buildScript rootDir).length = 3 ∧
    (buildScript rootDir).map (fun p => p.2.program) =
      ["cargo", "wasm-bindgen", "wasm-opt"] ∧
    (buildScript rootDir).map Prod.fst =
      ["now: rustc compilation", "now: wasm-bindgen pass",
       "now: wasm-opt pass"] ∧
    runScript rootDir oracle =
      ([.notice "now: rustc compilation", .invoke (compileStage rootDir),
        .notice "now: wasm-bindgen pass", .invoke (bindStage rootDir),
        .notice "now: wasm-opt pass", .invoke (optStage rootDir)], 0) := by
  have h1 : oracle (compileStage rootDir) = .exited 0 :=
    hall ("now: rustc compilation", compileStage rootDir) (by simp [buildScript])
  have h2 : oracle (bindStage rootDir) = .exited 0 :=
    hall ("now: wasm-bindgen pass", bindStage rootDir) (by simp [buildScript])
  have h3 : oracle (optStage rootDir) = .exited 0 :=
    hall ("now: wasm-opt pass", optStage rootDir) (by simp [buildScript])
  refine ⟨rfl, rfl, rfl, ?_⟩
  simp [runScript, buildScript, runStages, stageEvents, h1, h2, h3]

/-- Witness for C3 at the concrete root `"/r"` and the all-succeeding
oracle. -/
theorem pipeline_three_stages_witness :
    (buildScript "/r").length = 3 ∧
    (buildScript "/r").map (fun p => p.2.program) =
      ["cargo", "wasm-bindgen", "wasm-opt"] ∧
    (buildScript "/r").map Prod.fst =
      ["now: rustc compilation", "now: wasm-bindgen pass",
       "now: wasm-opt pass"] ∧
    runScript "/r" allOk =
      ([.notice "now: rustc compilation", .invoke (compileStage "/r"),
        .notice "now: wasm-bindgen pass", .invoke (bindStage "/r"),
        .notice "now: wasm-opt pass", .invoke (optStage "/r")], 0) :=
  pipeline_three_stages "/r" allOk (fun _ _ => rfl)

/-- C6. Path resolution purity: in the embedding `resolvePaths` is a pure
function of `rootDir` alone (as in the source, which only calls
`os.path.join` on strings — no filesystem access, no side effects), so the
same `rootDir` always yields the identical `ResolvedPaths`; this theorem
gives the closed form built from `rootDir` by pure string concatenation. -/
theorem resolvePaths_pure (rootDir : String) (h1 : rootDir ≠ "")
    (h2 : rootDir.data.getLast? ≠ some '/') :
    resolvePaths rootDir =
      { rootDir := rootDir
        targetArtifact :=
          rootDir ++ "/../../target/wasm32-unknown-unknown/release/gba_rust_wasm.wasm"
        outputDir := rootDir ++ "/pkg"
        bridgedArtifact := rootDir ++ "/pkg/gba_rust_wasm_bg.wasm" } :=
  resolvePaths_eq rootDir h1 h2

/-- Witness for C6 at the concrete root `"/proj/frontend"`. -/
theorem resolvePaths_pure_witness :
    resolvePaths "/proj/frontend" =
      { rootDir := "/proj/frontend"
        targetArtifact :=
          "/proj/frontend" ++ "/../../target/wasm32-unknown-unknown/release/gba_rust_wasm.wasm"
        outputDir := "/proj/frontend" ++ "/pkg"
        bridgedArtifact := "/proj/frontend" ++ "/pkg/gba_rust_wasm_bg.wasm" } :=
  resolvePaths_pure "/proj/frontend" (by decide) (by decide)

example : joinPaths "/proj/frontend" ["..", "..", "target"] =
    "/proj/frontend/../../target" := by decide

example : runScript "/r" (fun _ => .exited 0) =
    ([.notice "now: rustc compilation", .invoke (compileStage "/r"),
      .notice "now: wasm-bindgen pass", .invoke (bindStage "/r"),
      .notice "now: wasm-opt pass", .invoke (optStage "/r")], 0) := by
  decide

/-- C1. Fail-fast execution: if every stage before position `i` exits 0 and
stage `i` terminates with a nonzero exit status `c`, the run's event trace
is exactly the notices and invocations of stages `0..i` — so no stage after
`i` is invoked, no other action (in particular no cleanup or rollback of
prior stages' filesystem effects, the `Event` type having no such action)
occurs, and the process exits 1, propagating the failure. -/
theorem pipeline_fail_fast (rootDir : String) (oracle : Stage → RunResult)
    (i : Nat) (hi : i < 3) (c : Int) (hc : c ≠ 0)
    (hprev : ∀ j, j < i → oracle (stageAt rootDir j) = .exited 0)
    (hfail : oracle (stageAt rootDir i) = .exited c) :
    runScript rootDir oracle =
      (((buildScript rootDir).take (i + 1)).flatMap stageEvents, 1) ∧
    ∀ j, i < j → j < 3 →
      Event.invoke (stageAt rootDir j) ∉ (runScript rootDir oracle).1 := by
  have hcc : RunResult.exited c ≠ .exited 0 := by simp [hc]
  interval_cases i
  · have hf : oracle (compileStage rootDir) = .exited c := hfail
    have h0 : oracle (compileStage rootDir) ≠ .exited 0 := by
      rw [hf]; exact hcc
    have htr : runScript rootDir oracle =
        ([.notice "now: rustc compilation",
          .invoke (compileStage rootDir)], 1) := by
      simp [runScript, buildScript, runStages, stageEvents, h0]
    constructor
    · rw [htr]; rfl
    · intro j hj1 hj2
      rw [htr]
      interval_cases j
      · simpa [stageAt, buildScript] using bind_ne_compile rootDir
      · simpa [stageAt, buildScript] using opt_ne_compile rootDir
  · have hp0 : oracle (compileStage rootDir) = .exited 0 := hprev 0 (by omega)
    have hf : oracle (bindStage rootDir) = .exited c := hfail
    have h1 : oracle (bindStage rootDir) ≠ .exited 0 := by
      rw [hf]; exact hcc
    have htr : runScript rootDir oracle =
        ([.notice "now: rustc compilation", .invoke (compileStage rootDir),
          .notice "now: wasm-bindgen pass",
          .invoke (bindStage rootDir)], 1) := by
      simp [runScript, buildScript, runStages, stageEvents, hp0, h1]
    constructor
    · rw [htr]; rfl
    · intro j hj1 hj2
      rw [htr]
      interval_cases j
      simpa [stageAt, buildScript] using
        ⟨opt_ne_compile rootDir, opt_ne_bind rootDir⟩
  · have hp0 : oracle (compileStage rootDir) = .exited 0 := hprev 0 (by omega)
    have hp1 : oracle (bindStage rootDir) = .exited 0 := hprev 1 (by omega)
    have hf : oracle (optStage rootDir) = .exited c := hfail
    have h2 : oracle (optStage rootDir) ≠ .exited 0 := by
      rw [hf]; exact hcc
    have htr : runScript rootDir oracle =
        ([.notice "now: rustc compilation", .invoke (compileStage rootDir),
          .notice "now: wasm-bindgen pass", .invoke (bindStage rootDir),
          .notice "now: wasm-opt pass", .invoke (optStage rootDir)], 1) := by
      simp [runScript, buildScript, runStages, stageEvents, hp0, hp1, h2]
    constructor
    · rw [htr]; rfl
    · intro j hj1 hj2
      omega

/-- Witness for C1: stage 2 (`wasm-bindgen`) exits 2, so the run stops
after stage 2's invocation and exits 1. -/
theorem pipeline_fail_fast_witness :
    runScript "/r" failBindOracle =
      (((buildScript "/r").take 2).flatMap stageEvents, 1) ∧
    ∀ j, 1 < j → j < 3 →
      Event.invoke (stageAt "/r" j) ∉ (runScript "/r" failBindOracle).1 :=
  pipeline_fail_fast "/r" failBindOracle 1 (by decide) 2 (by decide)
    (by intro j hj; interval_cases j; rfl) rfl

/-- C8. Spawn-failure handling: if the first stage's program cannot be
located or started at all, the process exits 1 (nonzero) and neither the
bind stage nor the optimize stage is invoked. -/
theorem spawn_failure_halts (rootDir : String) (oracle : Stage → RunResult)
    (h : oracle (compileStage rootDir) = .spawnFailed) :
    runScript rootDir oracle =
      ([.notice "now: rustc compilation",
        .invoke (compileStage rootDir)], 1) ∧
    (runScript rootDir oracle).2 ≠ 0 ∧
    Event.invoke (bindStage rootDir) ∉ (runScript rootDir oracle).1 ∧
    Event.invoke (optStage rootDir) ∉ (runScript rootDir oracle).1 := by
  have h0 : oracle (compileStage rootDir) ≠ .exited 0 := by
    rw [h]; simp
  have htr : runScript rootDir oracle =
      ([.notice "now: rustc compilation",
        .invoke (compileStage rootDir)], 1) := by
    simp [runScript, buildScript, runStages, stageEvents, h0]
  refine ⟨htr, ?_, ?_, ?_⟩
  · rw [htr]; simp
  · rw [htr]; simpa using bind_ne_compile rootDir
  · rw [htr]; simpa using opt_ne_compile rootDir

/-- Witness for C8: the oracle where no program can be spawned. -/
theorem spawn_failure_halts_witness :
    runScript "/r" spawnFailOracle =
      ([.notice "now: rustc compilation", .invoke (compileStage "/r")], 1) ∧
    (runScript "/r" spawnFailOracle).2 ≠ 0 ∧
    Event.invoke (bindStage "/r") ∉ (runScript "/r" spawnFailOracle).1 ∧
    Event.invoke (optStage "/r") ∉ (runScript "/r" spawnFailOracle).1 :=
  spawn_failure_halts "/r" spawnFailOracle rfl

/-- C10. Uniform invocation context: every stage of the script is spawned
with the same working directory — `root_dir`, the directory containing the
build script (`os.path.dirname(__file__)`) — and with an empty environment
overlay, so each child inherits the ambient process environment unmodified
(the script's `os.environ.update` call is commented out and no `env=` is
passed to `subprocess.run`). -/
theorem uniform_invocation_context (rootDir : String) (p : String × Stage)
    (hp : p ∈ buildScript rootDir) :
    p.2.workingDirectory = rootDir ∧ p.2.environmentOverlay = [] := by
  simp only [buildScript, List.mem_cons, List.not_mem_nil, or_false] at hp
  rcases hp with h | h | h <;> subst h <;>
    simp [compileStage, bindStage, optStage]

/-- Witness for C10 at the concrete root `"/r"` and the bind stage. -/
theorem uniform_invocation_context_witness :
    (("now: wasm-bindgen pass", bindStage "/r") : String × Stage).2.workingDirectory = "/r" ∧
    (("now: wasm-bindgen pass", bindStage "/r") : String × Stage).2.environmentOverlay = [] :=
  uniform_invocation_context "/r" ("now: wasm-bindgen pass", bindStage "/r")
    (by simp [buildScript])

/-- C5. simd-debug profile contents (modelled from the spec, the variant
script being absent from `src/`): the compile stage carries the SIMD
feature environment overlay (`RUSTFLAGS`) and the standard-library-rebuild
flag, and the optimize stage's arguments include the bulk-memory and
reference-types enablement flags and the debug-info-preserving flag. -/
theorem simd_debug_profile (rootDir : String) :
    ("RUSTFLAGS", "-C target-feature=+simd128") ∈
      (simdCompileStage rootDir).environmentOverlay ∧
    "-Zbuild-std=std,panic_abort" ∈ (simdCompileStage rootDir).arguments ∧
    "--enable-bulk-memory" ∈ (simdOptStage rootDir).arguments ∧
    "--enable-reference-types" ∈ (simdOptStage rootDir).arguments ∧
    "-g" ∈ (simdOptStage rootDir).arguments := by
  refine ⟨?_, ?_, ?_, ?_, ?_⟩ <;> simp [simdCompileStage, simdOptStage]

/-- C9. Bind stage configuration: `wasm-bindgen` receives `targetArtifact`
as its (first, positional) input path, `--out-dir` set to `outputDir` — the
fixed `pkg` subdirectory of `rootDir` — and the module-linkage mode fixed
to `--target no-modules`; the optimize stage's input `bridgedArtifact` is
the fixed-name file `gba_rust_wasm_bg.wasm` inside that same directory. -/
theorem bind_stage_config (rootDir : String) (h1 : rootDir ≠ "")
    (h2 : rootDir.data.getLast? ≠ some '/') :
    (bindStage rootDir).program = "wasm-bindgen" ∧
    (bindStage rootDir).arguments =
      [(resolvePaths rootDir).targetArtifact, "--out-dir",
       (resolvePaths rootDir).outputDir, "--target", "no-modules"] ∧
    (resolvePaths rootDir).outputDir = rootDir ++ "/pkg" ∧
    (resolvePaths rootDir).bridgedArtifact =
      (resolvePaths rootDir).outputDir ++ "/gba_rust_wasm_bg.wasm" ∧
    (optStage rootDir).arguments.head? =
      some ((resolvePaths rootDir).bridgedArtifact) := by
  have hr := resolvePaths_eq rootDir h1 h2
  have hlit : ("/pkg" : String) ++ "/gba_rust_wasm_bg.wasm" =
      "/pkg/gba_rust_wasm_bg.wasm" := rfl
  refine ⟨rfl, rfl, by simp [hr], ?_, rfl⟩
  simp [hr, String.append_assoc, hlit]

/-- Witness for C9 at the concrete root `"/proj/frontend"`. -/
theorem bind_stage_config_witness :
    (bindStage "/proj/frontend").program = "wasm-bindgen" ∧
    (bindStage "/proj/frontend").arguments =
      [(resolvePaths "/proj/frontend").targetArtifact, "--out-dir",
       (resolvePaths "/proj/frontend").outputDir, "--target", "no-modules"] ∧
    (resolvePaths "/proj/frontend").outputDir = "/proj/frontend" ++ "/pkg" ∧
    (resolvePaths "/proj/frontend").bridgedArtifact =
      (resolvePaths "/proj/frontend").outputDir ++ "/gba_rust_wasm_bg.wasm" ∧
    (optStage "/proj/frontend").arguments.head? =
      some ((resolvePaths "/proj/frontend").bridgedArtifact) :=
  bind_stage_config "/proj/frontend" (by decide) (by decide)

/-- C7. Plain-release stage flags: the compile stage passes the release
flag and the fixed target triple with an empty environment overlay, and the
optimize stage invokes `wasm-opt` with `bridgedArtifact` as both input and
output (in-place rewrite) at the maximum aggressiveness level `-O4`,
omitting the bulk-memory, reference-types and debug-info flags. -/
theorem plain_release_flags (rootDir : String) (h1 : rootDir ≠ "")
    (h2 : rootDir.data.getLast? ≠ some '/') :
    (compileStage rootDir).arguments =
      ["build", "--release", "--target", "wasm32-unknown-unknown"] ∧
    (compileStage rootDir).environmentOverlay = [] ∧
    (optStage rootDir).program = "wasm-opt" ∧
    (optStage rootDir).arguments =
      [(resolvePaths rootDir).bridgedArtifact, "-O4", "-o",
       (resolvePaths rootDir).bridgedArtifact] ∧
    "--enable-bulk-memory" ∉ (optStage rootDir).arguments ∧
    "--enable-reference-types" ∉ (optStage rootDir).arguments ∧
    "-g" ∉ (optStage rootDir).arguments := by
  have hb : (resolvePaths rootDir).bridgedArtifact =
      rootDir ++ "/pkg/gba_rust_wasm_bg.wasm" := by
    simp [resolvePaths_eq rootDir h1 h2]
  have hbm : ("--enable-bulk-memory" : String) ≠
      rootDir ++ "/pkg/gba_rust_wasm_bg.wasm" :=
    ne_append_of_length_lt _ _ _ (by decide)
  have hrt : ("--enable-reference-types" : String) ≠
      rootDir ++ "/pkg/gba_rust_wasm_bg.wasm" :=
    ne_append_of_length_lt _ _ _ (by decide)
  have hg : ("-g" : String) ≠ rootDir ++ "/pkg/gba_rust_wasm_bg.wasm" :=
    ne_append_of_length_lt _ _ _ (by decide)
  refine ⟨rfl, rfl, rfl, rfl, ?_, ?_, ?_⟩
  · simp [optStage, hb, hbm]
  · simp [optStage, hb, hrt]
  · simp [optStage, hb, hg]

/-- Witness for C7 at the concrete root `"/proj/frontend"`. -/
theorem plain_release_flags_witness :
    (compileStage "/proj/frontend").arguments =
      ["build", "--release", "--target", "wasm32-unknown-unknown"] ∧
    (compileStage "/proj/frontend").environmentOverlay = [] ∧
    (optStage "/proj/frontend").program = "wasm-opt" ∧
    (optStage "/proj/frontend").arguments =
      [(resolvePaths "/proj/frontend").bridgedArtifact, "-O4", "-o",
       (resolvePaths "/proj/frontend").bridgedArtifact] ∧
    "--enable-bulk-memory" ∉ (optStage "/proj/frontend").arguments ∧
    "--enable-reference-types" ∉ (optStage "/proj/frontend").arguments ∧
    "-g" ∉ (optStage "/proj/frontend").arguments :=
  plain_release_flags "/proj/frontend" (by decide) (by decide)

/-- C4, counterexample: at root anchor `/proj/frontend` the compile stage's
declared output path is
`/proj/frontend/../../target/wasm32-unknown-unknown/release/gba_rust_wasm.wasm`,
which normalises to `/target/wasm32-unknown-unknown/release/gba_rust_wasm.wasm`
— under the grandparent of the root anchor, not under
`/proj/frontend/target/...` as the claim states (neither the raw nor the
normalised path has `/proj/frontend/target/` as a prefix). -/
theorem artifact_not_under_root_counterexample :
    (resolvePaths "/proj/frontend").targetArtifact =
      "/proj/frontend/../../target/wasm32-unknown-unknown/release/gba_rust_wasm.wasm" ∧
    normalizeAbs ((resolvePaths "/proj/frontend").targetArtifact) =
      "/target/wasm32-unknown-unknown/release/gba_rust_wasm.wasm" ∧
    ("/proj/frontend/target/".data.isPrefixOf
        ((resolvePaths "/proj/frontend").targetArtifact).data) = false ∧
    ("/proj/frontend/target/".data.isPrefixOf
        (normalizeAbs ((resolvePaths "/proj/frontend").targetArtifact)).data)
      = false := by
  decide

/-- C4, amended: `targetArtifact` is `rootDir` plus the fixed relative
suffix `../../target/wasm32-unknown-unknown/release/gba_rust_wasm.wasm`
(encoding the target triple and the release profile), received verbatim by
the bind stage as its input path; it lies under the
`target/<triple>/release/` subtree of `rootDir`'s grandparent
(`rootDir/../..`), not of `rootDir` itself — e.g. `/proj/frontend` yields a
path normalising to `/target/wasm32-unknown-unknown/release/gba_rust_wasm.wasm`. -/
theorem artifact_path_amended (rootDir : String) (h1 : rootDir ≠ "")
    (h2 : rootDir.data.getLast? ≠ some '/') :
    (resolvePaths rootDir).targetArtifact =
      rootDir ++ "/../../target/wasm32-unknown-unknown/release/gba_rust_wasm.wasm" ∧
    (bindStage rootDir).arguments.head? =
      some ((resolvePaths rootDir).targetArtifact) ∧
    normalizeAbs ((resolvePaths "/proj/frontend").targetArtifact) =
      "/target/wasm32-unknown-unknown/release/gba_rust_wasm.wasm" := by
  have hr := resolvePaths_eq rootDir h1 h2
  exact ⟨by simp [hr], rfl, by decide⟩

/-- Witness for the amended C4 at the concrete root `"/proj/frontend"`. -/
theorem artifact_path_amended_witness :
    (resolvePaths "/proj/frontend").targetArtifact =
      "/proj/frontend" ++ "/../../target/wasm32-unknown-unknown/release/gba_rust_wasm.wasm" ∧
    (bindStage "/proj/frontend").arguments.head? =
      some ((resolvePaths "/proj/frontend").targetArtifact) ∧
    normalizeAbs ((resolvePaths "/proj/frontend").targetArtifact) =
      "/target/wasm32-unknown-unknown/release/gba_rust_wasm.wasm" :=
  artifact_path_amended "/proj/frontend" (by decide) (by decide)
